import Mathlib

/-!
# Verification of `csv_to_github_project.py`

A shallow embedding of the CSV-to-GitHub-Projects import script.  Remote
GraphQL calls are modelled by oracles (an `Env` record of functions returning
`Except PyErr _`), mirroring the fact that the script consumes one response per
request and performs no retries.  Every function keeps the structure, the
branch order and the observable effects (remote calls, stdout lines, stderr
diagnostics) of its Python counterpart; effects are collected in an explicit
`Trace`.

Python string primitives (`str.lower`, `str.strip`, `str.lstrip("@")`,
`str.split(",")`) are embedded as executable functions over the character
list of a `String` (`pyLower`, `pyStrip`, `pyLstripAt`, `pySplitComma`);
they agree with the Python originals on ASCII data, which is all the claims
exercise.  Python `float(...)` is a foreign builtin and is modelled as an
oracle `pyFloat : String → Option Rat` in the environment (every finite IEEE
double is a rational, and no claim inspects the numeric value beyond carrying
it).  Numbers in mutation payloads carry the oracle's output.
-/

/-- All failures the script can raise are Python `RuntimeError`s distinguished
by their message.  We model them as constructors carrying the data the message
is built from, following the spec's taxonomy: `transport` for a non-200 HTTP
status (`gql`, line 25 of the source), `application` for an `errors` entry in
a 200 response (line 28), `notFound` for the project-missing error (line 85),
`other` for any further exception an oracle may produce. -/
inductive PyErr where
  | transport (status : Nat) (body : String)
  | application (errs : String)
  | notFound (owner : String) (number : Nat)
  | other (msg : String)
deriving DecidableEq

/-- The exact message text each error is raised with in the source. -/
def PyErr.message : PyErr → String
  | .transport status body => "GraphQL HTTP " ++ toString status ++ ": " ++ body
  | .application errs => "GraphQL errors: " ++ errs
  | .notFound owner number =>
      "Nu am găsit Project #" ++ toString number ++ " la '" ++ owner ++
        "' (nici ca user, nici ca organization)."
  | .other msg => msg

/-- One HTTP response to a GraphQL POST, as `gql` observes it: the status
code, the raw body text, the optional `errors` entry of the parsed JSON
(rendered), and the `data` entry. -/
structure GqlResp (α : Type) where
  status : Nat
  text : String
  errors : Option String
  payload : α
deriving DecidableEq

/-- Lines 12-29 of the source: raise on a non-200 status (message carries the
status and the raw body), then raise if the body has an `errors` entry, else
return the `data` payload.  The function consumes exactly one response — there
is no retry. -/
def gql {α : Type} (r : GqlResp α) : Except PyErr α :=
  if r.status ≠ 200 then
    .error (.transport r.status r.text)
  else
    match r.errors with
    | some errs => .error (.application errs)
    | none => .ok r.payload

/-- An option of a single-select field, `options { id name }` in the query. -/
structure FieldOption where
  id : String
  name : String
deriving DecidableEq

/-- One node of the `fields(first: 100)` connection.  `name` is optional
because a node whose type matches none of the query's fragments carries no
`name` key (the code guards `not node.get("name")`).  `id` and `dataType` are
declared non-null for the three fragment types of the query, so they are plain
strings; `options` is present only on `ProjectV2SingleSelectField` nodes and
may be null there. -/
structure FieldNode where
  typename : String
  id : String
  name : Option String
  dataType : String
  options : Option (List FieldOption)
deriving DecidableEq

/-- A normalized field as stored in `field_by_name` (lines 95-101). -/
structure ProjField where
  id : String
  name : String
  dataType : String
  options : Option (List FieldOption)
deriving DecidableEq

/-- A `projectV2` object of a successful lookup: its id and its field nodes
(a node itself may be null in the connection, hence `Option`). -/
structure ProjData where
  id : String
  fieldNodes : List (Option FieldNode)
deriving DecidableEq

/-- Lines 95-101: skip nodes without a truthy `name` (absent or empty), keep
`id`, `name`, `dataType`, and attach `options` (null coalesced to `[]`)
exactly when the node's `__typename` is `ProjectV2SingleSelectField`. -/
def normField (n : FieldNode) : Option ProjField :=
  match n.name with
  | none => none
  | some nm =>
      if nm = "" then none
      else
        some { id := n.id, name := nm, dataType := n.dataType,
               options := if n.typename = "ProjectV2SingleSelectField"
                          then some (n.options.getD []) else none }

/-- Line 93: a null node is skipped, otherwise it is normalized. -/
def keepNode : Option FieldNode → Option ProjField
  | none => none
  | some n => normField n

/-- The `field_by_name` dict (lines 91-102), modelled as the insertion log of
its assignments; `dictGet` reads the last binding of a key, which is exactly
Python's dict lookup after repeated assignment. -/
def normalizeFields (nodes : List (Option FieldNode)) : List (String × ProjField) :=
  nodes.foldl
    (fun d n? => match keepNode n? with
      | none => d
      | some f => d ++ [(f.name, f)])
    []

/-- Dict lookup on an insertion log: the last binding of the key wins. -/
def dictGet (d : List (String × ProjField)) (k : String) : Option ProjField :=
  ((d.filter (fun kv => kv.1 == k)).getLast?).map (fun kv => kv.2)

/-- Lines 69-73: the user-kind lookup is wrapped in `try/except RuntimeError`,
so an error or an absent project both count as a miss. -/
def userMiss (r : Except PyErr (Option ProjData)) : Bool :=
  match r with
  | .ok (some _) => false
  | _ => true

/-- Lines 68-88 of `get_project_and_fields`: probe the `user` owner kind
first, treating a raised error like an absent project; on a miss probe the
`organization` kind (NOT guarded by a try/except, so its errors propagate);
raise the not-found error only when the organization probe completes without
a project.  `userR`/`orgR` are the outcomes of the two `gql` calls; the result
carries the project and which owner kind matched. -/
def resolveProject (owner : String) (number : Nat)
    (userR orgR : Except PyErr (Option ProjData)) :
    Except PyErr (ProjData × String) :=
  match (match userR with | .error _ => none | .ok p => p) with
  | some p => .ok (p, "user")
  | none =>
      match orgR with
      | .error e => .error e
      | .ok (some p) => .ok (p, "org")
      | .ok none => .error (.notFound owner number)

/-- The value of `get_project_and_fields`: project id and the by-name map. -/
structure ProjectInfo where
  id : String
  fields : List (String × ProjField)
deriving DecidableEq

/-- Lines 32-104: resolve the project (two-kind probing) and normalize its
fields; also returns the `[INFO]` stdout line of line 88. -/
def get_project_and_fields (owner : String) (number : Nat)
    (userR orgR : Except PyErr (Option ProjData)) :
    Except PyErr (ProjectInfo × String) :=
  match resolveProject owner number userR orgR with
  | .error e => .error e
  | .ok (p, whereKind) =>
      .ok ({ id := p.id, fields := normalizeFields p.fieldNodes },
           "[INFO] Project găsit la " ++ whereKind ++ ".")

/-- Python `str.lower()` (ASCII-faithful), over the character list. -/
def pyLower (s : String) : String := String.mk (s.data.map Char.toLower)

/-- Python `str.strip()`: drop whitespace from both ends. -/
def pyStrip (s : String) : String :=
  String.mk (((s.data.dropWhile Char.isWhitespace).reverse.dropWhile
    Char.isWhitespace).reverse)

/-- Python `str.lstrip("@")`: drop every leading `@`. -/
def pyLstripAt (s : String) : String :=
  String.mk (s.data.dropWhile (fun c => c == '@'))

/-- Splitting a character list at every occurrence of a separator char. -/
def splitCharAux (c : Char) : List Char → List (List Char)
  | [] => [[]]
  | x :: xs =>
      match splitCharAux c xs with
      | [] => [[]]
      | g :: gs => if x == c then [] :: g :: gs else (x :: g) :: gs

/-- Python `str.split(",")` (the script always splits on the comma). -/
def pySplitComma (s : String) : List String :=
  (splitCharAux ',' s.data).map String.mk

/-- Python `a or b` for two optional strings: `a` unless it is `None` or
empty. -/
def pyOr (a b : Option String) : Option String :=
  match a with
  | some s => if s = "" then b else some s
  | none => b

/-- Coerce an optional string the way the trailing `or ""` does. -/
def pyStr (o : Option String) : String := o.getD ""

/-- Python `a or b` on two strings (`body or ""` in the creation calls). -/
def pyOrStr (a b : String) : String := if a = "" then b else a

/-- The contents of a Python `set` built from a list, as a list: duplicates
removed.  Python's set iteration order is unspecified; the embedding fixes
first-occurrence order, and every claim about these loops is insensitive to
the order. -/
def pydedup (l : List String) : List String :=
  l.foldl (fun acc x => if acc.contains x then acc else acc ++ [x]) []

/-- A label node returned by the `labels(first:100, query:$query)` search. -/
structure LabelNode where
  id : String
  name : String
deriving DecidableEq

/-- The issue object returned by `createIssue`: `issue { id number url }`. -/
structure Issue where
  id : String
  number : Nat
  url : String
deriving DecidableEq

/-- The `CreateIssueInput` payload built at lines 170-176.  `labelIds` and
`assigneeIds` are `Option` because `xs or None` sends `null` instead of an
empty list. -/
structure CreateIssueInput where
  repositoryId : String
  title : String
  body : String
  labelIds : Option (List String)
  assigneeIds : Option (List String)
deriving DecidableEq

/-- The `AddProjectV2DraftIssueInput` payload built at lines 243-248.  Note
that the mutation input has no label field at all: a draft item cannot carry
labels. -/
structure DraftInput where
  projectId : String
  title : String
  body : String
  assigneeIds : Option (List String)
deriving DecidableEq

/-- The typed `value` payload of `updateProjectV2ItemFieldValue`
(lines 196-217), one constructor per coercion branch. -/
inductive FieldValue where
  | text (s : String)
  | number (n : Rat)
  | date (s : String)
  | singleSelectOptionId (id : String)
deriving DecidableEq

/-- The `UpdateProjectV2ItemFieldValueInput` payload (lines 227-232). -/
structure UpdateInput where
  projectId : String
  itemId : String
  fieldId : String
  value : FieldValue
deriving DecidableEq

/-- One remote GraphQL request issued by the script, with its payload. -/
inductive RemoteCall where
  | userQuery (login : String)
  | labelQuery (repo : String) (name : String)
  | createIssue (input : CreateIssueInput)
  | addItem (projectId : String) (contentId : String)
  | draftIssue (input : DraftInput)
  | updateItemField (input : UpdateInput)
deriving DecidableEq

/-- A diagnostic written to stderr, one constructor per `print(...,
file=sys.stderr)` site of the row pipeline; `Diag.render` below reproduces
the exact text. -/
inductive Diag where
  | userWarn (login : String)
  | labelWarn (names : List String)
  | numWarn (value : String)
  | noOptionsWarn
  | unknownOptionWarn (value : String)
  | unsupportedInfo (dataType : String)
  | fieldWarn (col : String) (value : String) (e : PyErr)
  | titleErr (line : Nat)
deriving DecidableEq

/-- Insertion into a sorted list of strings (code-point order, as Python's
`sorted` on ASCII strings). -/
def sortIns (x : String) : List String → List String
  | [] => [x]
  | y :: ys => if x < y then x :: y :: ys else y :: sortIns x ys

/-- Ascending sort, used by the label warning (`sorted(remaining)`). -/
def sortStr (l : List String) : List String := l.foldr sortIns []

/-- The exact stderr text of each diagnostic in the source. -/
def Diag.render : Diag → String
  | .userWarn login => "[AVERTISMENT] Utilizator inexistent: " ++ login
  | .labelWarn names =>
      "[AVERTISMENT] Etichete inexistente în repo: " ++
        String.intercalate ", " (sortStr names)
  | .numWarn value =>
      "[AVERTISMENT] Câmp numeric ignorat (valoare invalidă): " ++ value
  | .noOptionsWarn => "[AVERTISMENT] Câmp single-select fără opțiuni; ignorat."
  | .unknownOptionWarn value =>
      "[AVERTISMENT] Opțiune necunoscută '" ++ value ++
        "' pentru câmpul single-select; ignorat."
  | .unsupportedInfo dataType =>
      "[INFO] Tip de câmp nesuportat acum: " ++ dataType ++ "; ignor."
  | .fieldWarn col value e =>
      "[AVERTISMENT] Nu am putut seta câmpul '" ++ col ++ "' la '" ++ value ++
        "': " ++ e.message
  | .titleErr line =>
      "[EROARE] Linia " ++ toString line ++ ": lipsește coloana Title."

/-- The observable effects of a piece of the pipeline: the remote calls it
issued (in order), its stdout lines and its stderr diagnostics. -/
structure Trace where
  calls : List RemoteCall
  out : List String
  err : List Diag
deriving DecidableEq

def Trace.nil : Trace := { calls := [], out := [], err := [] }

def Trace.append (a b : Trace) : Trace :=
  { calls := a.calls ++ b.calls, out := a.out ++ b.out, err := a.err ++ b.err }

/-- The remote service and the `float` builtin, as oracles: each maps a
request payload to the outcome the corresponding `gql` call (or parse) would
produce.  An `Except.error` models the call raising. -/
structure Env where
  pyFloat : String → Option Rat
  userResult : String → Except PyErr (Option String)
  labelNodes : String → String → Except PyErr (List LabelNode)
  createIssueResult : CreateIssueInput → Except PyErr Issue
  addItemResult : String → String → Except PyErr String
  draftResult : DraftInput → Except PyErr String
  updateResult : UpdateInput → Except PyErr Unit

/-- Line 132: `set([ln.strip() for ln in label_names if ln.strip()])` — strip
every requested name, drop the blank ones, remove duplicates. -/
def cleanNames (l : List String) : List String :=
  pydedup ((l.map pyStrip).filter (fun s => s != ""))

/-- The acceptance rule of line 137 applied to one requested name: the first
returned candidate whose name equals it case-insensitively, if the query
succeeded. -/
def matchedLabel (env : Env) (repo ln : String) : Option String :=
  match env.labelNodes repo ln with
  | .error _ => none
  | .ok nodes =>
      (nodes.find? (fun x => pyLower x.name == pyLower ln)).map (fun x => x.id)

/-- The `for ln in list(remaining)` loop of lines 134-140: one search query
per name; a case-insensitive exact match appends its id, a miss leaves the
name in `remaining`.  Returns (ids, names still unmatched) or the error of a
raising query, plus the calls issued. -/
def label_loop (env : Env) (repo : String) :
    List String → Except PyErr (List String × List String) × List RemoteCall
  | [] => (.ok ([], []), [])
  | ln :: rest =>
      match env.labelNodes repo ln with
      | .error e => (.error e, [.labelQuery repo ln])
      | .ok nodes =>
          match label_loop env repo rest with
          | (.error e, calls) => (.error e, .labelQuery repo ln :: calls)
          | (.ok (ids, unmatched), calls) =>
              match nodes.find? (fun x => pyLower x.name == pyLower ln) with
              | some m =>
                  (.ok (m.id :: ids, unmatched), .labelQuery repo ln :: calls)
              | none =>
                  (.ok (ids, ln :: unmatched), .labelQuery repo ln :: calls)

/-- Lines 120-143 (`get_label_ids`): return `[]` at once for an empty request
list, otherwise run the per-name loop and, if names remain unmatched, print
one warning listing them. -/
def get_label_ids (env : Env) (repo : String) (label_names : List String) :
    Except PyErr (List String) × Trace :=
  if label_names = [] then (.ok [], Trace.nil)
  else
    match label_loop env repo (cleanNames label_names) with
    | (.error e, calls) => (.error e, { calls := calls, out := [], err := [] })
    | (.ok (ids, unmatched), calls) =>
        (.ok ids,
         { calls := calls, out := [],
           err := if unmatched = [] then [] else [.labelWarn unmatched] })

/-- The `for lg in {...}` loop of lines 152-158: one direct lookup per login;
a hit appends the id, a miss prints a warning, a raising query propagates. -/
def userLoop (env : Env) : List String → Except PyErr (List String) × Trace
  | [] => (.ok [], Trace.nil)
  | lg :: rest =>
      match env.userResult lg with
      | .error e => (.error e, { calls := [.userQuery lg], out := [], err := [] })
      | .ok (some uid) =>
          match userLoop env rest with
          | (.error e, t) =>
              (.error e, { calls := .userQuery lg :: t.calls, out := t.out, err := t.err })
          | (.ok ids, t) =>
              (.ok (uid :: ids), { calls := .userQuery lg :: t.calls, out := t.out, err := t.err })
      | .ok none =>
          match userLoop env rest with
          | (r, t) =>
              (r, { calls := .userQuery lg :: t.calls, out := t.out, err := .userWarn lg :: t.err })

/-- Lines 145-159 (`get_user_ids`): return `[]` at once for an empty request
list, otherwise loop over the stripped, deduplicated logins. -/
def get_user_ids (env : Env) (logins : List String) :
    Except PyErr (List String) × Trace :=
  if logins = [] then (.ok [], Trace.nil)
  else userLoop env (pydedup ((logins.map pyStrip).filter (fun s => s != "")))

/-- Lines 170-176: the `CreateIssueInput` variables, with `or None` turning an
empty id list into `null`. -/
def create_issue_input (repo_id title body : String)
    (label_ids assignee_ids : List String) : CreateIssueInput :=
  { repositoryId := repo_id, title := title, body := pyOrStr body "",
    labelIds := if label_ids = [] then none else some label_ids,
    assigneeIds := if assignee_ids = [] then none else some assignee_ids }

/-- Lines 161-179 (`create_issue`): one `createIssue` mutation; on success a
confirmation line naming the issue's public number and URL. -/
def create_issue (env : Env) (repo_id title body : String)
    (label_ids assignee_ids : List String) : Except PyErr String × Trace :=
  let inp := create_issue_input repo_id title body label_ids assignee_ids
  match env.createIssueResult inp with
  | .error e => (.error e, { calls := [.createIssue inp], out := [], err := [] })
  | .ok issue =>
      (.ok issue.id,
       { calls := [.createIssue inp],
         out := ["Creat issue #" ++ toString issue.number ++ ": " ++ issue.url],
         err := [] })

/-- Lines 181-190 (`add_item_to_project`): one `addProjectV2ItemById`
mutation returning the board item id. -/
def add_item_to_project (env : Env) (project_id content_id : String) :
    Except PyErr String × Trace :=
  match env.addItemResult project_id content_id with
  | .error e =>
      (.error e, { calls := [.addItem project_id content_id], out := [], err := [] })
  | .ok item_id =>
      (.ok item_id, { calls := [.addItem project_id content_id], out := [], err := [] })

/-- The tail of `update_field`: issue the one mutation with the coerced
value. -/
def mkUpdateCall (env : Env) (inp : UpdateInput) : Except PyErr Unit × Trace :=
  (env.updateResult inp, { calls := [.updateItemField inp], out := [], err := [] })

/-- Lines 192-232 (`update_field`): dispatch on the declared `dataType`.
Free text and date pass the value through; a number must parse as a Python
float, else the field is skipped with a warning; a single-select value must
match an option name case-insensitively, with a missing/empty option list or
an unmatched value skipped with a warning; any other kind is skipped with an
informational notice.  A successful coercion issues exactly one mutation. -/
def update_field (env : Env) (project_id item_id field_id data_type value : String)
    (options : Option (List FieldOption)) : Except PyErr Unit × Trace :=
  if data_type = "TEXT" then
    mkUpdateCall env { projectId := project_id, itemId := item_id,
                       fieldId := field_id, value := .text value }
  else if data_type = "NUMBER" then
    match env.pyFloat value with
    | none => (.ok (), { calls := [], out := [], err := [.numWarn value] })
    | some num =>
        mkUpdateCall env { projectId := project_id, itemId := item_id,
                           fieldId := field_id, value := .number num }
  else if data_type = "DATE" then
    mkUpdateCall env { projectId := project_id, itemId := item_id,
                       fieldId := field_id, value := .date value }
  else if data_type = "SINGLE_SELECT" then
    match options with
    | none => (.ok (), { calls := [], out := [], err := [.noOptionsWarn] })
    | some [] => (.ok (), { calls := [], out := [], err := [.noOptionsWarn] })
    | some os =>
        match os.find? (fun o => pyLower o.name == pyLower value) with
        | none =>
            (.ok (), { calls := [], out := [], err := [.unknownOptionWarn value] })
        | some opt =>
            mkUpdateCall env { projectId := project_id, itemId := item_id,
                               fieldId := field_id,
                               value := .singleSelectOptionId opt.id }
  else (.ok (), { calls := [], out := [], err := [.unsupportedInfo data_type] })

/-- Lines 243-248: the `AddProjectV2DraftIssueInput` variables, with
`or None` turning an empty assignee list into `null`. -/
def draft_input (project_id title body : String)
    (assignee_ids : List String) : DraftInput :=
  { projectId := project_id, title := title, body := pyOrStr body "",
    assigneeIds := if assignee_ids = [] then none else some assignee_ids }

/-- Lines 234-249 (`create_draft_issue_and_item`): one
`addProjectV2DraftIssue` mutation returning the board item id. -/
def create_draft_issue_and_item (env : Env) (project_id title body : String)
    (assignee_ids : List String) : Except PyErr String × Trace :=
  match env.draftResult (draft_input project_id title body assignee_ids) with
  | .error e =>
      (.error e,
       { calls := [.draftIssue (draft_input project_id title body assignee_ids)],
         out := [], err := [] })
  | .ok item_id =>
      (.ok item_id,
       { calls := [.draftIssue (draft_input project_id title body assignee_ids)],
         out := [], err := [] })

/-- A CSV record as `csv.DictReader` yields it: one (header, value) pair per
column, a value being `none` when the physical row is shorter than the
header. -/
def Row : Type := List (String × Option String)

/-- `row.get(k)`: `none` for a missing key, else the (possibly `None`)
value. -/
def rowGet (row : Row) (k : String) : Option String :=
  match (row.filter (fun kv => kv.1 == k)).getLast? with
  | none => none
  | some kv => kv.2

/-- Line 284: `row.get("Title") or row.get("title")`, coerced to a string
(`""` when absent) so that line 285's truthiness test is `= ""`. -/
def titleOf (row : Row) : String :=
  pyStr (pyOr (rowGet row "Title") (rowGet row "title"))

/-- Line 288: `row.get("Body") or row.get("body") or ""`. -/
def bodyOf (row : Row) : String :=
  pyStr (pyOr (rowGet row "Body") (rowGet row "body"))

/-- Lines 290-291: split the Labels cell on commas and strip each part. -/
def labelsOf (row : Row) : List String :=
  let raw := pyStr (pyOr (rowGet row "Labels") (rowGet row "labels"))
  if raw = "" then [] else (pySplitComma raw).map pyStrip

/-- Lines 293-294: split the Assignees cell on commas, strip each part and
drop any leading `@`. -/
def assigneesOf (row : Row) : List String :=
  let raw := pyStr (pyOr (rowGet row "Assignees") (rowGet row "assignees"))
  if raw = "" then []
  else (pySplitComma raw).map (fun x => pyLstripAt (pyStrip x))

/-- The reserved column names of line 311, exact case-sensitive matches. -/
def reserved : List String :=
  ["Title", "title", "Body", "body", "Labels", "labels", "Assignees", "assignees"]

/-- Lines 319-321: the option list handed to `update_field` — only a
single-select field gets one, with a missing list coalesced to `[]`. -/
def optsOf (field : ProjField) : Option (List FieldOption) :=
  if field.dataType = "SINGLE_SELECT" then some (field.options.getD []) else none

/-- The body of the per-column loop (lines 310-325) for one column: skip
reserved names, `None`/blank values and columns matching no known field
(each silently); otherwise invoke `update_field` under a `try` that turns
any raised exception into a per-field warning. -/
def handleCol (env : Env) (project_id item_id : String)
    (project_fields : List (String × ProjField)) :
    String × Option String → Trace
  | (name, v?) =>
    if reserved.contains name then Trace.nil
    else
      match v? with
      | none => Trace.nil
      | some v =>
          if pyStrip v = "" then Trace.nil
          else
            match dictGet project_fields name with
            | none => Trace.nil
            | some field =>
                match update_field env project_id item_id field.id field.dataType
                    (pyStrip v) (optsOf field) with
                | (.ok _, t) => t
                | (.error e, t) =>
                    { calls := t.calls, out := t.out,
                      err := t.err ++ [.fieldWarn name v e] }

/-- The whole per-column loop: every column of the record is handled, in
order, its effects appended — a failure on one column never stops the
loop. -/
def fieldLoop (env : Env) (project_id item_id : String)
    (project_fields : List (String × ProjField)) :
    List (String × Option String) → Trace
  | [] => Trace.nil
  | kv :: rest =>
      (handleCol env project_id item_id project_fields kv).append
        (fieldLoop env project_id item_id project_fields rest)

/-- Lines 298-307: the two mutually exclusive creation paths.  Draft mode
creates a draft item directly on the project; tracked mode resolves labels,
creates the issue, then attaches it to the project (printing the progress
line of line 307 on success). -/
def createStage (env : Env) (draft : Bool) (repo repo_id project_id : String)
    (title body : String) (labels assignee_ids : List String) :
    Except PyErr String × Trace :=
  if draft then
    match create_draft_issue_and_item env project_id title body assignee_ids with
    | (.error e, t) => (.error e, t)
    | (.ok item_id, t) =>
        (.ok item_id,
         t.append { calls := [], out := ["Draft Issue creat și adăugat în Project (item " ++ item_id ++ ")."], err := [] })
  else
    match get_label_ids env repo labels with
    | (.error e, t) => (.error e, t)
    | (.ok label_ids, t1) =>
        match create_issue env repo_id title body label_ids assignee_ids with
        | (.error e, t2) => (.error e, t1.append t2)
        | (.ok issue_id, t2) =>
            match add_item_to_project env project_id issue_id with
            | (.error e, t3) => (.error e, t1.append (t2.append t3))
            | (.ok item_id, t3) =>
                (.ok item_id,
                 t1.append (t2.append (t3.append
                   { calls := [], out := ["Adăugat în Project item " ++ item_id ++ "."], err := [] })))

/-- The body of the row loop of `main` (lines 283-325, without the sleep):
skip the record with an error line when it has no truthy title (processing
continues — no exception); resolve assignees; run the mode-selected creation
stage; then run the per-column field loop.  An error anywhere outside the
per-field `try` aborts the row with that error (`main` catches nothing else,
so the run terminates). -/
def process_row (env : Env) (draft : Bool) (repo repo_id project_id : String)
    (project_fields : List (String × ProjField)) (i : Nat) (row : Row) :
    Trace × Option PyErr :=
  if titleOf row = "" then
    ({ calls := [], out := [], err := [.titleErr i] }, none)
  else
    match get_user_ids env (assigneesOf row) with
    | (.error e, t) => (t, some e)
    | (.ok assignee_ids, t1) =>
        match createStage env draft repo repo_id project_id (titleOf row)
            (bodyOf row) (labelsOf row) assignee_ids with
        | (.error e, t2) => (t1.append t2, some e)
        | (.ok item_id, t2) =>
            (t1.append (t2.append
              (fieldLoop env project_id item_id project_fields row)), none)

/-- Whether an error is the resolver's not-found error. -/
def PyErr.isNotFound : PyErr → Bool
  | .notFound _ _ => true
  | _ => false

/-- Whether a remote call is a label search query. -/
def RemoteCall.isLabelQuery : RemoteCall → Bool
  | .labelQuery _ _ => true
  | _ => false

/-- Whether a remote call is a tracked-issue creation (the only creation
whose payload can carry label ids). -/
def RemoteCall.isCreateIssue : RemoteCall → Bool
  | .createIssue _ => true
  | _ => false

/-- Whether a diagnostic is the unresolved-labels warning. -/
def Diag.isLabelWarn : Diag → Bool
  | .labelWarn _ => true
  | _ => false

/-- A trace that touches no label machinery: no label query, no tracked-issue
creation, no unresolved-labels warning. -/
def Trace.labelFree (t : Trace) : Bool :=
  t.calls.all (fun c => !c.isLabelQuery && !c.isCreateIssue)
    && t.err.all (fun m => !m.isLabelWarn)

/-- A sample environment for witnesses: `2` parses as a float, `alice`
resolves, `crash` raises, other logins miss; the label `bug` exists (stored
capitalized as `Bug`); every mutation succeeds. -/
def envW : Env where
  pyFloat := fun s => if s = "2" then some 2 else none
  userResult := fun lg =>
    if lg = "alice" then .ok (some "U1")
    else if lg = "crash" then .error (.other "boom")
    else .ok none
  labelNodes := fun _ ln =>
    if ln = "bug" then .ok [{ id := "L1", name := "Bug" }] else .ok []
  createIssueResult := fun _ => .ok { id := "I1", number := 7, url := "u" }
  addItemResult := fun _ _ => .ok "IT1"
  draftResult := fun _ => .ok "D1"
  updateResult := fun _ => .ok ()

/-- A sample environment whose mutations raise, for the error-isolation
witnesses. -/
def envE : Env where
  pyFloat := fun _ => some 2
  userResult := fun _ => .ok (some "U1")
  labelNodes := fun _ _ => .ok []
  createIssueResult := fun _ => .error (.other "down")
  addItemResult := fun _ _ => .error (.other "down")
  draftResult := fun _ => .error (.other "down")
  updateResult := fun _ => .error (.other "net")

/- Decidable equality on `Except`, so witnesses can be checked by `decide`. -/
deriving instance DecidableEq for Except

/-- C5: for every query/mutation call, `gql` returns the parsed result
payload exactly when the HTTP status is the success status (200) and the
response body carries no embedded error entries; on a non-success status it
raises a transport error whose message includes the status and the raw body;
on embedded error entries despite a success status it raises an application
error.  It consumes a single response — there is no retry. -/
theorem C5_gql_contract {α : Type} (r : GqlResp α) :
    (∀ x : α, gql r = .ok x ↔ (r.status = 200 ∧ r.errors = none ∧ x = r.payload))
    ∧ (r.status ≠ 200 →
        gql r = .error (.transport r.status r.text)
        ∧ (PyErr.transport r.status r.text).message
            = "GraphQL HTTP " ++ toString r.status ++ ": " ++ r.text)
    ∧ (r.status = 200 → ∀ errs, r.errors = some errs →
        gql r = .error (.application errs)) := by
  refine ⟨?_, ?_, ?_⟩
  · intro x
    by_cases h : r.status = 200
    · cases herr : r.errors with
      | none => simp [gql, h, herr, eq_comm]
      | some errs => simp [gql, h, herr]
    · simp [gql, h]
  · intro h
    exact ⟨by simp [gql, h], rfl⟩
  · intro h errs herr
    simp [gql, h, herr]

/-- C5 witness: a 200 response with no errors yields its payload; a 500
response raises the transport error carrying status and body; a 200 response
with an errors entry raises the application error. -/
theorem C5_witness :
    gql { status := 200, text := "ok", errors := none, payload := (3 : Nat) } = .ok 3
    ∧ gql { status := 500, text := "oops", errors := none, payload := (3 : Nat) }
        = .error (.transport 500 "oops")
    ∧ gql { status := 200, text := "ok", errors := some "bad", payload := (3 : Nat) }
        = .error (.application "bad") := by
  refine ⟨?_, ?_, ?_⟩
  · exact ((C5_gql_contract _).1 3).mpr ⟨rfl, rfl, rfl⟩
  · exact ((C5_gql_contract _).2.1 (by decide)).1
  · exact (C5_gql_contract _).2.2 rfl "bad" rfl

/-- C1 counterexample: with the user-kind lookup returning no board and the
organization-kind lookup raising an application error, both attempts fail to
yield a board, yet the resolver propagates the application error instead of
failing with the not-found error — refuting "with no other kind of error". -/
theorem C1_counterexample :
    resolveProject "octo" 1 (.ok none) (.error (.application "boom"))
        = .error (.application "boom")
    ∧ (PyErr.application "boom").isNotFound = false :=
  ⟨rfl, rfl⟩

/-- C1 amended: the resolver attempts the individual-account kind first,
treating an error there like an absent board; on a miss it attempts the
organizational kind; if the organizational attempt completes and yields no
board it fails with the not-found error, while an error raised by the
organizational attempt propagates as that error (not as a not-found
error). -/
theorem C1_resolution_order (owner : String) (number : Nat)
    (userR orgR : Except PyErr (Option ProjData)) :
    (∀ p, userR = .ok (some p) →
        resolveProject owner number userR orgR = .ok (p, "user"))
    ∧ (userMiss userR = true → ∀ p, orgR = .ok (some p) →
        resolveProject owner number userR orgR = .ok (p, "org"))
    ∧ (userMiss userR = true → orgR = .ok none →
        resolveProject owner number userR orgR = .error (.notFound owner number))
    ∧ (userMiss userR = true → ∀ e, orgR = .error e →
        resolveProject owner number userR orgR = .error e) := by
  refine ⟨?_, ?_, ?_, ?_⟩
  · intro p hp
    simp [resolveProject, hp]
  · intro hm p hp
    cases userR with
    | error e => simp [resolveProject, hp]
    | ok q =>
        cases q with
        | none => simp [resolveProject, hp]
        | some _ => simp [userMiss] at hm
  · intro hm ho
    cases userR with
    | error e => simp [resolveProject, ho]
    | ok q =>
        cases q with
        | none => simp [resolveProject, ho]
        | some _ => simp [userMiss] at hm
  · intro hm e he
    cases userR with
    | error e' => simp [resolveProject, he]
    | ok q =>
        cases q with
        | none => simp [resolveProject, he]
        | some _ => simp [userMiss] at hm

/-- C1 witness: the four resolution outcomes at concrete inputs. -/
theorem C1_witness :
    resolveProject "o" 2 (.ok (some { id := "P", fieldNodes := [] })) (.ok none)
        = .ok ({ id := "P", fieldNodes := [] }, "user")
    ∧ resolveProject "o" 2 (.ok none) (.ok (some { id := "P", fieldNodes := [] }))
        = .ok ({ id := "P", fieldNodes := [] }, "org")
    ∧ resolveProject "o" 2 (.error (.other "x")) (.ok none)
        = .error (.notFound "o" 2)
    ∧ resolveProject "o" 2 (.ok none) (.error (.other "x"))
        = .error (.other "x") :=
  ⟨(C1_resolution_order "o" 2 (.ok (some { id := "P", fieldNodes := [] }))
      (.ok none)).1 _ rfl,
   (C1_resolution_order "o" 2 (.ok none)
      (.ok (some { id := "P", fieldNodes := [] }))).2.1 rfl _ rfl,
   (C1_resolution_order "o" 2 (.error (.other "x")) (.ok none)).2.2.1 rfl rfl,
   (C1_resolution_order "o" 2 (.ok none) (.error (.other "x"))).2.2.2 rfl _ rfl⟩

/-- C9: in tracked mode, the `CreateIssueInput` payload submits an empty
resolved label-identifier or assignee-identifier list as unset (`null`), and
a non-empty list as the list itself. -/
theorem C9_empty_lists_unset (repo_id title body : String)
    (label_ids assignee_ids : List String) :
    (label_ids = [] →
      (create_issue_input repo_id title body label_ids assignee_ids).labelIds = none)
    ∧ (label_ids ≠ [] →
      (create_issue_input repo_id title body label_ids assignee_ids).labelIds
        = some label_ids)
    ∧ (assignee_ids = [] →
      (create_issue_input repo_id title body label_ids assignee_ids).assigneeIds = none)
    ∧ (assignee_ids ≠ [] →
      (create_issue_input repo_id title body label_ids assignee_ids).assigneeIds
        = some assignee_ids) := by
  refine ⟨fun h => ?_, fun h => ?_, fun h => ?_, fun h => ?_⟩ <;>
    simp [create_issue_input, h]

/-- C9 witness: the null/non-null shapes at concrete lists. -/
theorem C9_witness :
    (create_issue_input "R" "t" "b" [] ["a"]).labelIds = none
    ∧ (create_issue_input "R" "t" "b" ["l"] []).labelIds = some ["l"]
    ∧ (create_issue_input "R" "t" "b" ["l"] []).assigneeIds = none
    ∧ (create_issue_input "R" "t" "b" [] ["a"]).assigneeIds = some ["a"] :=
  ⟨(C9_empty_lists_unset "R" "t" "b" [] ["a"]).1 rfl,
   (C9_empty_lists_unset "R" "t" "b" ["l"] []).2.1 (by simp),
   (C9_empty_lists_unset "R" "t" "b" ["l"] []).2.2.1 rfl,
   (C9_empty_lists_unset "R" "t" "b" [] ["a"]).2.2.2 (by simp)⟩

/-- C2: for every field of declared kind NUMBER and every raw value — if the
value parses as a Python float, `update_field` issues exactly one mutation
carrying that number; if it does not parse, it emits the numeric warning,
makes no mutation call, and returns without raising. -/
theorem C2_number_coercion (env : Env) (pid iid fid v : String)
    (options : Option (List FieldOption)) :
    (∀ n, env.pyFloat v = some n →
      update_field env pid iid fid "NUMBER" v options =
        (env.updateResult
           { projectId := pid, itemId := iid, fieldId := fid, value := .number n },
         { calls := [.updateItemField
             { projectId := pid, itemId := iid, fieldId := fid, value := .number n }],
           out := [], err := [] }))
    ∧ (env.pyFloat v = none →
      update_field env pid iid fid "NUMBER" v options =
        (.ok (), { calls := [], out := [], err := [.numWarn v] })) := by
  constructor
  · intro n hn
    simp [update_field, hn, mkUpdateCall]
  · intro hn
    simp [update_field, hn]

/-- C2 witness: in `envW` the value `2` parses and yields the one mutation
with number 2; `abc` does not parse and is skipped with the warning. -/
theorem C2_witness :
    update_field envW "P" "IT" "F" "NUMBER" "2" none =
      (.ok (), { calls := [.updateItemField ⟨"P", "IT", "F", .number 2⟩],
                 out := [], err := [] })
    ∧ update_field envW "P" "IT" "F" "NUMBER" "abc" none =
      (.ok (), { calls := [], out := [], err := [.numWarn "abc"] }) :=
  ⟨(C2_number_coercion envW "P" "IT" "F" "2" none).1 2 (by decide),
   (C2_number_coercion envW "P" "IT" "F" "abc" none).2 (by decide)⟩

/-- C3: for every field of declared kind SINGLE_SELECT — a raw value matching
some option name case-insensitively yields one mutation submitting that
option's identifier (the matched option belongs to the list and matches the
value); an absent or empty option list is skipped with the no-options
warning; a non-matching value on a non-empty list is skipped with the
unknown-option warning; the skipping branches return without raising. -/
theorem C3_single_select (env : Env) (pid iid fid v : String)
    (options : Option (List FieldOption)) :
    ((options = none ∨ options = some []) →
      update_field env pid iid fid "SINGLE_SELECT" v options =
        (.ok (), { calls := [], out := [], err := [.noOptionsWarn] }))
    ∧ (∀ os opt, options = some os →
        os.find? (fun o => pyLower o.name == pyLower v) = some opt →
        update_field env pid iid fid "SINGLE_SELECT" v options =
          (env.updateResult
             { projectId := pid, itemId := iid, fieldId := fid,
               value := .singleSelectOptionId opt.id },
           { calls := [.updateItemField
               { projectId := pid, itemId := iid, fieldId := fid,
                 value := .singleSelectOptionId opt.id }],
             out := [], err := [] })
          ∧ opt ∈ os ∧ pyLower opt.name = pyLower v)
    ∧ (∀ os, options = some os → os ≠ [] →
        os.find? (fun o => pyLower o.name == pyLower v) = none →
        update_field env pid iid fid "SINGLE_SELECT" v options =
          (.ok (), { calls := [], out := [], err := [.unknownOptionWarn v] })) := by
  refine ⟨?_, ?_, ?_⟩
  · rintro (rfl | rfl) <;> simp [update_field]
  · rintro os opt rfl hfind
    cases os with
    | nil => simp at hfind
    | cons o rest =>
        refine ⟨by simp [update_field, hfind, mkUpdateCall], ?_, ?_⟩
        · exact List.mem_of_find?_eq_some hfind
        · have := List.find?_some hfind
          exact eq_of_beq this
  · rintro os rfl hne hfind
    cases os with
    | nil => exact absurd rfl hne
    | cons o rest => simp [update_field, hfind]

/-- C3 witness: against options Low/High, value `high` matches
case-insensitively and submits option id `O2`; value `Hi` matches nothing
and is skipped with a warning; an absent option list is skipped with the
no-options warning. -/
theorem C3_witness :
    update_field envW "P" "IT" "F" "SINGLE_SELECT" "high"
        (some [{ id := "O1", name := "Low" }, { id := "O2", name := "High" }]) =
      (.ok (), { calls := [.updateItemField ⟨"P", "IT", "F", .singleSelectOptionId "O2"⟩],
                 out := [], err := [] })
    ∧ update_field envW "P" "IT" "F" "SINGLE_SELECT" "Hi"
        (some [{ id := "O1", name := "Low" }, { id := "O2", name := "High" }]) =
      (.ok (), { calls := [], out := [], err := [.unknownOptionWarn "Hi"] })
    ∧ update_field envW "P" "IT" "F" "SINGLE_SELECT" "x" none =
      (.ok (), { calls := [], out := [], err := [.noOptionsWarn] }) :=
  ⟨((C3_single_select envW "P" "IT" "F" "high"
      (some [{ id := "O1", name := "Low" }, { id := "O2", name := "High" }])).2.1
      [{ id := "O1", name := "Low" }, { id := "O2", name := "High" }]
      { id := "O2", name := "High" } rfl (by decide)).1,
   (C3_single_select envW "P" "IT" "F" "Hi"
      (some [{ id := "O1", name := "Low" }, { id := "O2", name := "High" }])).2.2
      _ rfl (by simp) (by decide),
   (C3_single_select envW "P" "IT" "F" "x" none).1 (Or.inl rfl)⟩

/-- C6: for every record column, field coercion (`update_field`) is invoked
exactly when the column name is not reserved (case-sensitively), its value is
present and non-blank, and its name exactly matches a field in the resolved
map — and a column failing any of these conditions (in particular one
matching no field) is passed over silently: no remote call, no stdout, no
stderr. -/
theorem C6_column_matching (env : Env) (pid iid : String)
    (pf : List (String × ProjField)) (name : String) (v? : Option String) :
    ((name ∈ reserved ∨ v? = none
        ∨ (∃ v, v? = some v ∧ pyStrip v = "")
        ∨ dictGet pf name = none) →
      handleCol env pid iid pf (name, v?) = Trace.nil)
    ∧ (∀ v field, name ∉ reserved → v? = some v →
        pyStrip v ≠ "" → dictGet pf name = some field →
        handleCol env pid iid pf (name, v?) =
          (match update_field env pid iid field.id field.dataType (pyStrip v)
              (optsOf field) with
           | (.ok _, t) => t
           | (.error e, t) =>
               { calls := t.calls, out := t.out,
                 err := t.err ++ [.fieldWarn name v e] })) := by
  constructor
  · rintro (h | rfl | ⟨v, rfl, hv⟩ | h)
    · simp [handleCol, h]
    · by_cases hres : name ∈ reserved <;> simp [handleCol, hres]
    · by_cases hres : name ∈ reserved <;> simp [handleCol, hres, hv]
    · by_cases hres : name ∈ reserved
      · simp [handleCol, hres]
      · cases v? with
        | none => simp [handleCol, hres]
        | some v =>
            by_cases hv : pyStrip v = "" <;> simp [handleCol, hres, hv, h]
  · intro v field hres hv hblank hget
    subst hv
    simp [handleCol, hres, hblank, hget]

/-- C6 witness: the reserved column `Title` and an unmatched column `Nope`
are silently ignored; the matching non-blank column `Points` invokes the
coercion, resulting in the one numeric mutation. -/
theorem C6_witness :
    handleCol envW "P" "IT" [("Points", ⟨"F1", "Points", "NUMBER", none⟩)]
        ("Title", some "T") = Trace.nil
    ∧ handleCol envW "P" "IT" [("Points", ⟨"F1", "Points", "NUMBER", none⟩)]
        ("Nope", some "x") = Trace.nil
    ∧ handleCol envW "P" "IT" [("Points", ⟨"F1", "Points", "NUMBER", none⟩)]
        ("Points", some "2") =
      { calls := [.updateItemField ⟨"P", "IT", "F1", .number 2⟩],
        out := [], err := [] } := by
  refine ⟨?_, ?_, ?_⟩
  · exact (C6_column_matching envW "P" "IT"
      [("Points", ⟨"F1", "Points", "NUMBER", none⟩)] "Title" (some "T")).1
      (Or.inl (by decide))
  · exact (C6_column_matching envW "P" "IT"
      [("Points", ⟨"F1", "Points", "NUMBER", none⟩)] "Nope" (some "x")).1
      (Or.inr (Or.inr (Or.inr (by decide))))
  · have h := (C6_column_matching envW "P" "IT"
      [("Points", ⟨"F1", "Points", "NUMBER", none⟩)] "Points" (some "2")).2
      "2" ⟨"F1", "Points", "NUMBER", none⟩ (by decide) rfl (by decide) (by decide)
    exact h.trans (by decide)

/-- The `field_by_name` build is the insertion log of the kept, normalized
nodes in order. -/
theorem normalizeFields_eq (nodes : List (Option FieldNode)) :
    normalizeFields nodes
      = (nodes.filterMap keepNode).map (fun f => (f.name, f)) := by
  suffices h : ∀ (l : List (Option FieldNode)) (d : List (String × ProjField)),
      l.foldl (fun d n? => match keepNode n? with
        | none => d
        | some f => d ++ [(f.name, f)]) d
        = d ++ (l.filterMap keepNode).map (fun f => (f.name, f)) by
    simpa [normalizeFields] using h nodes []
  intro l
  induction l with
  | nil => simp
  | cons n rest ih =>
      intro d
      cases hk : keepNode n with
      | none => simp [hk, ih]
      | some f => simp [hk, ih]

/-- C8: the schema resolver's map is keyed by exact field name (every entry's
key is its field's name, and `dictGet` at a key returns the LAST kept field
carrying exactly that name, so duplicates resolve last-wins); and a
normalized field records an option list exactly when its node's typename is
the single-select one. -/
theorem C8_field_map (nodes : List (Option FieldNode)) (k : String) :
    dictGet (normalizeFields nodes) k
      = ((nodes.filterMap keepNode).filter (fun f => f.name == k)).getLast?
    ∧ (∀ kv ∈ normalizeFields nodes, kv.1 = kv.2.name)
    ∧ (∀ fn f, normField fn = some f →
        f.options.isSome = (fn.typename == "ProjectV2SingleSelectField")) := by
  refine ⟨?_, ?_, ?_⟩
  · rw [dictGet, normalizeFields_eq, List.filter_map]
    have hp : ((fun kv : String × ProjField => kv.1 == k)
        ∘ (fun f : ProjField => (f.name, f))) = fun f => f.name == k := rfl
    rw [hp, List.getLast?_map, Option.map_map]
    have hid : ((fun kv : String × ProjField => kv.2)
        ∘ (fun f : ProjField => (f.name, f))) = id := rfl
    rw [hid, Option.map_id]
    rfl
  · intro kv hkv
    rw [normalizeFields_eq] at hkv
    obtain ⟨f, _, rfl⟩ := List.mem_map.mp hkv
    rfl
  · intro fn f h
    obtain ⟨fid, fname, fdt, fopts⟩ := f
    unfold normField at h
    cases hname : fn.name with
    | none => rw [hname] at h; simp at h
    | some nm =>
        rw [hname] at h
        by_cases hnm : nm = ""
        · simp [hnm] at h
        · simp only [hnm, if_false, if_neg hnm, Option.some.injEq,
            ProjField.mk.injEq] at h
          obtain ⟨h1, h2, h3, h4⟩ := h
          by_cases ht : fn.typename = "ProjectV2SingleSelectField" <;>
            simp [← h4, ht]

/-- C8 witness: two kept nodes named `Pri` — a single-select one (with an
option list) then a plain number one (without) — resolve to the later node;
the single-select node's normal form records its options. -/
theorem C8_witness :
    dictGet (normalizeFields
        [some ⟨"ProjectV2SingleSelectField", "F1", some "Pri", "SINGLE_SELECT",
               some [⟨"O1", "Low"⟩]⟩,
         none,
         some ⟨"ProjectV2Field", "F2", some "Pri", "NUMBER", none⟩]) "Pri"
      = some ⟨"F2", "Pri", "NUMBER", none⟩
    ∧ (⟨"Pri", ⟨"F1", "Pri", "SINGLE_SELECT", some [⟨"O1", "Low"⟩]⟩⟩ :
        String × ProjField).1
      = (⟨"Pri", ⟨"F1", "Pri", "SINGLE_SELECT", some [⟨"O1", "Low"⟩]⟩⟩ :
        String × ProjField).2.name
    ∧ (ProjField.options ⟨"F1", "Pri", "SINGLE_SELECT", some [⟨"O1", "Low"⟩]⟩).isSome
      = ("ProjectV2SingleSelectField" == "ProjectV2SingleSelectField") := by
  refine ⟨?_, ?_, ?_⟩
  · exact (C8_field_map
      [some ⟨"ProjectV2SingleSelectField", "F1", some "Pri", "SINGLE_SELECT",
             some [⟨"O1", "Low"⟩]⟩,
       none,
       some ⟨"ProjectV2Field", "F2", some "Pri", "NUMBER", none⟩] "Pri").1.trans
      (by decide)
  · exact (C8_field_map
      [some ⟨"ProjectV2SingleSelectField", "F1", some "Pri", "SINGLE_SELECT",
             some [⟨"O1", "Low"⟩]⟩,
       none,
       some ⟨"ProjectV2Field", "F2", some "Pri", "NUMBER", none⟩] "Pri").2.1
      ⟨"Pri", ⟨"F1", "Pri", "SINGLE_SELECT", some [⟨"O1", "Low"⟩]⟩⟩ (by decide)
  · exact (C8_field_map [] "Pri").2.2
      ⟨"ProjectV2SingleSelectField", "F1", some "Pri", "SINGLE_SELECT",
       some [⟨"O1", "Low"⟩]⟩
      ⟨"F1", "Pri", "SINGLE_SELECT", some [⟨"O1", "Low"⟩]⟩ (by decide)

/-- When every per-name query of the list succeeds, the label loop completes
with: the ids of the first case-insensitive match of each matched name, the
unmatched names (in order), and one search query per name. -/
theorem label_loop_ok (env : Env) (repo : String) (l : List String)
    (h : ∀ ln ∈ l, ∃ ns, env.labelNodes repo ln = .ok ns) :
    label_loop env repo l =
      (.ok (l.filterMap (matchedLabel env repo),
            l.filter (fun ln => (matchedLabel env repo ln).isNone)),
       l.map (fun ln => RemoteCall.labelQuery repo ln)) := by
  induction l with
  | nil => rfl
  | cons ln rest ih =>
      obtain ⟨ns, hns⟩ := h ln (List.mem_cons_self ln rest)
      have hrest := ih (fun x hx => h x (List.mem_cons_of_mem ln hx))
      cases hfind : ns.find? (fun x => pyLower x.name == pyLower ln) with
      | none => simp [label_loop, hns, hrest, hfind, matchedLabel]
      | some m => simp [label_loop, hns, hrest, hfind, matchedLabel]

/-- C4: when each per-name search query succeeds, label resolution issues one
query per requested (stripped, deduplicated, non-blank) name, returns exactly
the identifiers of the first case-insensitive matches of the matched names,
reports every unmatched name in the single diagnostic warning and drops it,
and never raises; moreover every returned identifier comes from a candidate
whose name equals a requested name case-insensitively. -/
theorem C4_label_resolution (env : Env) (repo : String) (names : List String)
    (h : ∀ ln ∈ cleanNames names, ∃ ns, env.labelNodes repo ln = .ok ns) :
    get_label_ids env repo names =
      (.ok ((cleanNames names).filterMap (matchedLabel env repo)),
       { calls := (cleanNames names).map (fun ln => RemoteCall.labelQuery repo ln),
         out := [],
         err := if (cleanNames names).filter
                    (fun ln => (matchedLabel env repo ln).isNone) = []
                then []
                else [.labelWarn ((cleanNames names).filter
                    (fun ln => (matchedLabel env repo ln).isNone))] })
    ∧ ∀ id ∈ (cleanNames names).filterMap (matchedLabel env repo),
        ∃ ln ∈ cleanNames names, ∃ ns nd, env.labelNodes repo ln = .ok ns
          ∧ nd ∈ ns ∧ pyLower nd.name = pyLower ln ∧ nd.id = id := by
  constructor
  · by_cases hnil : names = []
    · subst hnil
      rfl
    · rw [get_label_ids, if_neg hnil, label_loop_ok env repo _ h]
  · intro id hid
    obtain ⟨ln, hln, hml⟩ := List.mem_filterMap.mp hid
    refine ⟨ln, hln, ?_⟩
    unfold matchedLabel at hml
    cases hres : env.labelNodes repo ln with
    | error e => rw [hres] at hml; cases hml
    | ok ns =>
        rw [hres] at hml
        obtain ⟨nd, hfind, hid'⟩ := Option.map_eq_some'.mp hml
        have hmem := List.mem_of_find?_eq_some hfind
        have hbeq := List.find?_some hfind
        exact ⟨ns, nd, rfl, hmem, eq_of_beq hbeq, hid'⟩

/-- C4 witness: requesting `bug, urgent` (plus a blank entry) in `envW`,
where only `bug` exists (stored as `Bug`): one query per cleaned name, only
`L1` returned, `urgent` named in the warning, no exception. -/
theorem C4_witness :
    get_label_ids envW "o/r" ["bug", "urgent", " "] =
      (.ok ["L1"],
       { calls := [.labelQuery "o/r" "bug", .labelQuery "o/r" "urgent"],
         out := [], err := [.labelWarn ["urgent"]] }) := by
  have hyp : ∀ ln ∈ cleanNames ["bug", "urgent", " "],
      ∃ ns, envW.labelNodes "o/r" ln = .ok ns := by
    intro ln hln
    have hcn : cleanNames ["bug", "urgent", " "] = ["bug", "urgent"] := by decide
    rw [hcn] at hln
    simp only [List.mem_cons, List.not_mem_nil, or_false] at hln
    rcases hln with rfl | rfl
    · exact ⟨[{ id := "L1", name := "Bug" }], by decide⟩
    · exact ⟨[], by decide⟩
  exact ((C4_label_resolution envW "o/r" ["bug", "urgent", " "] hyp).1).trans
    (by decide)

/-- C7: a record without a truthy title is skipped entirely with the error
report and no exception (processing continues); the per-column loop always
proceeds column by column, and an exception raised by `update_field` on one
column is caught and turned into the per-field warning (so the remaining
columns are still processed); exceptions raised outside that per-field guard
— in assignee resolution or in the creation stage — propagate out of the row
and terminate the run. -/
theorem C7_error_isolation (env : Env) (draft : Bool)
    (repo repo_id project_id : String) (pf : List (String × ProjField))
    (i : Nat) (row : Row) :
    (titleOf row = "" →
      process_row env draft repo repo_id project_id pf i row =
        ({ calls := [], out := [], err := [.titleErr i] }, none))
    ∧ (∀ item_id kv rest,
        fieldLoop env project_id item_id pf (kv :: rest) =
          (handleCol env project_id item_id pf kv).append
            (fieldLoop env project_id item_id pf rest))
    ∧ (∀ item_id name v field e t, name ∉ reserved → pyStrip v ≠ "" →
        dictGet pf name = some field →
        update_field env project_id item_id field.id field.dataType (pyStrip v)
            (optsOf field) = (.error e, t) →
        handleCol env project_id item_id pf (name, some v) =
          { calls := t.calls, out := t.out,
            err := t.err ++ [.fieldWarn name v e] })
    ∧ (titleOf row ≠ "" → ∀ e t,
        get_user_ids env (assigneesOf row) = (.error e, t) →
        process_row env draft repo repo_id project_id pf i row = (t, some e))
    ∧ (titleOf row ≠ "" → ∀ assignee_ids t1 e t2,
        get_user_ids env (assigneesOf row) = (.ok assignee_ids, t1) →
        createStage env draft repo repo_id project_id (titleOf row)
            (bodyOf row) (labelsOf row) assignee_ids = (.error e, t2) →
        process_row env draft repo repo_id project_id pf i row =
          (t1.append t2, some e)) := by
  refine ⟨?_, ?_, ?_, ?_, ?_⟩
  · intro h
    rw [process_row, if_pos h]
  · intro item_id kv rest
    rfl
  · intro item_id name v field e t hres hblank hget hupd
    simp [handleCol, hres, hblank, hget, hupd]
  · intro h e t hget
    rw [process_row, if_neg h, hget]
  · intro h assignee_ids t1 e t2 hget hcs
    simp only [process_row, if_neg h, hget, hcs]

/-- C7 witness: a title-less record is skipped with the report and no error;
a failing `update_field` on the `Points` column is caught and reported as the
per-field warning; a raising user lookup aborts the row with its error; a
raising draft creation aborts the row with its error. -/
theorem C7_witness :
    process_row envW false "o/r" "R" "P" [] 3 [("Body", some "x")] =
      ({ calls := [], out := [], err := [.titleErr 3] }, none)
    ∧ handleCol envE "P" "IT" [("Points", ⟨"F1", "Points", "NUMBER", none⟩)]
        ("Points", some "2") =
      { calls := [.updateItemField ⟨"P", "IT", "F1", .number 2⟩],
        out := [], err := [.fieldWarn "Points" "2" (.other "net")] }
    ∧ process_row envW false "o/r" "R" "P" []
        1 [("Title", some "T"), ("Assignees", some "crash")] =
      ({ calls := [.userQuery "crash"], out := [], err := [] }, some (.other "boom"))
    ∧ process_row envE true "o/r" "R" "P" [] 1 [("Title", some "T")] =
      ({ calls := [.draftIssue ⟨"P", "T", "", none⟩], out := [], err := [] },
       some (.other "down")) := by
  refine ⟨?_, ?_, ?_, ?_⟩
  · exact (C7_error_isolation envW false "o/r" "R" "P" [] 3
      [("Body", some "x")]).1 (by decide)
  · have h := (C7_error_isolation envE false "o/r" "R" "P"
      [("Points", ⟨"F1", "Points", "NUMBER", none⟩)] 0 []).2.2.1 "IT"
      "Points" "2" ⟨"F1", "Points", "NUMBER", none⟩ (.other "net")
      { calls := [.updateItemField ⟨"P", "IT", "F1", .number 2⟩],
        out := [], err := [] }
      (by decide) (by decide) (by decide) (by decide)
    exact h
  · exact (C7_error_isolation envW false "o/r" "R" "P" [] 1
      [("Title", some "T"), ("Assignees", some "crash")]).2.2.2.1 (by decide)
      (.other "boom") { calls := [.userQuery "crash"], out := [], err := [] }
      (by decide)
  · exact (C7_error_isolation envE true "o/r" "R" "P" [] 1
      [("Title", some "T")]).2.2.2.2 (by decide) [] Trace.nil (.other "down")
      { calls := [.draftIssue ⟨"P", "T", "", none⟩], out := [], err := [] }
      (by decide) (by decide)

/-- Appending preserves label-freeness. -/
theorem labelFree_append {a b : Trace} (ha : a.labelFree = true)
    (hb : b.labelFree = true) : (a.append b).labelFree = true := by
  simp only [Trace.labelFree, Trace.append, List.all_append,
    Bool.and_eq_true] at ha hb ⊢
  exact ⟨⟨ha.1, hb.1⟩, ⟨ha.2, hb.2⟩⟩

/-- The user-resolution loop issues only user queries and user warnings. -/
theorem userLoop_labelFree (env : Env) (l : List String) :
    (userLoop env l).2.labelFree = true := by
  induction l with
  | nil => rfl
  | cons lg rest ih =>
      cases hres : env.userResult lg with
      | error e => simp [userLoop, hres, Trace.labelFree,
          RemoteCall.isLabelQuery, RemoteCall.isCreateIssue]
      | ok u =>
          rcases hrec : userLoop env rest with ⟨r, t⟩
          rw [hrec] at ih
          cases u with
          | none =>
              simp only [userLoop, hres, hrec]
              simp only [Trace.labelFree, List.all_cons, Bool.and_eq_true] at ih ⊢
              exact ⟨⟨⟨rfl, rfl⟩, ih.1⟩, ⟨rfl, ih.2⟩⟩
          | some uid =>
              cases r with
              | error e =>
                  simp only [userLoop, hres, hrec]
                  simp only [Trace.labelFree, List.all_cons,
                    Bool.and_eq_true] at ih ⊢
                  exact ⟨⟨⟨rfl, rfl⟩, ih.1⟩, ih.2⟩
              | ok ids =>
                  simp only [userLoop, hres, hrec]
                  simp only [Trace.labelFree, List.all_cons,
                    Bool.and_eq_true] at ih ⊢
                  exact ⟨⟨⟨rfl, rfl⟩, ih.1⟩, ih.2⟩

/-- User resolution as a whole touches no label machinery. -/
theorem get_user_ids_labelFree (env : Env) (logins : List String) :
    (get_user_ids env logins).2.labelFree = true := by
  by_cases h : logins = []
  · subst h; rfl
  · rw [get_user_ids, if_neg h]
    exact userLoop_labelFree env _

/-- A field update issues at most one field mutation and only field-level
warnings — never a label query or a label warning. -/
theorem update_field_labelFree (env : Env) (pid iid fid dt v : String)
    (opts : Option (List FieldOption)) :
    (update_field env pid iid fid dt v opts).2.labelFree = true := by
  unfold update_field mkUpdateCall
  split_ifs <;> try rfl
  · cases env.pyFloat v <;> rfl
  · split <;> try rfl
    split <;> rfl

/-- One column's handling touches no label machinery. -/
theorem handleCol_labelFree (env : Env) (pid iid : String)
    (pf : List (String × ProjField)) (kv : String × Option String) :
    (handleCol env pid iid pf kv).labelFree = true := by
  obtain ⟨name, v?⟩ := kv
  rcases v? with _ | v
  · simp only [handleCol]
    split <;> rfl
  · simp only [handleCol]
    split
    · rfl
    · split
      · rfl
      · split
        · rfl
        · rename_i field heq
          rcases hupd : update_field env pid iid field.id field.dataType
              (pyStrip v) (optsOf field) with ⟨r, t⟩
          have ht := update_field_labelFree env pid iid field.id field.dataType
            (pyStrip v) (optsOf field)
          rw [hupd] at ht
          cases r with
          | ok u => simp only [hupd]; exact ht
          | error e =>
              simp only [hupd]
              simp only [Trace.labelFree, List.all_append, List.all_cons,
                List.all_nil, Bool.and_eq_true] at ht ⊢
              exact ⟨ht.1, ht.2, ⟨rfl, trivial⟩⟩

/-- The whole per-column loop touches no label machinery. -/
theorem fieldLoop_labelFree (env : Env) (pid iid : String)
    (pf : List (String × ProjField)) (cols : List (String × Option String)) :
    (fieldLoop env pid iid pf cols).labelFree = true := by
  induction cols with
  | nil => rfl
  | cons kv rest ih =>
      exact labelFree_append (handleCol_labelFree env pid iid pf kv) ih

/-- The draft creation mutation issues only the draft call. -/
theorem create_draft_labelFree (env : Env) (pid title body : String)
    (aids : List String) :
    (create_draft_issue_and_item env pid title body aids).2.labelFree = true := by
  unfold create_draft_issue_and_item
  cases env.draftResult (draft_input pid title body aids) <;> rfl

/-- The draft creation stage issues only the draft mutation. -/
theorem createStage_draft_labelFree (env : Env) (repo repo_id pid : String)
    (title body : String) (labels aids : List String) :
    (createStage env true repo repo_id pid title body labels aids).2.labelFree
      = true := by
  unfold createStage
  rcases hd : create_draft_issue_and_item env pid title body aids with ⟨r, t⟩
  have ht := create_draft_labelFree env pid title body aids
  rw [hd] at ht
  cases r with
  | error e => simp only [hd, if_pos rfl]; exact ht
  | ok item_id =>
      simp only [hd, if_pos rfl]
      exact labelFree_append ht (by rfl)

/-- C10: in draft mode, a record's Labels column is ignored entirely — the
row issues no label-resolution query and no tracked-issue creation (whose
payload is the only one carrying label ids; the draft payload has no label
field), and emits no unresolved-labels warning, whatever the record and the
environment.  Label resolution can therefore only run in tracked mode. -/
theorem C10_draft_ignores_labels (env : Env) (repo repo_id project_id : String)
    (pf : List (String × ProjField)) (i : Nat) (row : Row) :
    (process_row env true repo repo_id project_id pf i row).1.labelFree = true := by
  unfold process_row
  by_cases ht : titleOf row = ""
  · rw [if_pos ht]; rfl
  · rw [if_neg ht]
    rcases hget : get_user_ids env (assigneesOf row) with ⟨r, t1⟩
    have ht1 := get_user_ids_labelFree env (assigneesOf row)
    rw [hget] at ht1
    cases r with
    | error e => exact ht1
    | ok aids =>
        rcases hcs : createStage env true repo repo_id project_id (titleOf row)
            (bodyOf row) (labelsOf row) aids with ⟨r2, t2⟩
        have ht2 := createStage_draft_labelFree env repo repo_id project_id
          (titleOf row) (bodyOf row) (labelsOf row) aids
        rw [hcs] at ht2
        cases r2 with
        | error e => simp only [hcs]; exact labelFree_append ht1 ht2
        | ok item_id =>
            simp only [hcs]
            exact labelFree_append ht1 (labelFree_append ht2
              (fieldLoop_labelFree env project_id item_id pf row))
